import Mathlib

/-!
Shallow embedding of the dsme disk-monitor module (src/modules/diskmonitor.c).

The module keeps three pieces of mutable state (the file-level globals
`init_done_received`, `device_active`, `last_check_time`), reacts to four
trigger events (heartbeat wakeup, boot-done D-Bus signal, mce inactivity
D-Bus signal, explicit D-Bus check request) plus the prober result event,
and emits observable effects: invoking the disk-usage prober
(`check_disk_space_usage`), broadcasting a heartbeat schedule request
(`DSM_MSGTYPE_WAIT` with mintime/maxtime), replying on D-Bus, and emitting
the `disk_space_change_ind` D-Bus signal.

Each C handler is embedded as a pure function from the state (plus the
current wall-clock time `now`, standing for `time(0)`) to the new state and
the ordered list of effects it produced.  The C `int` truncation in
`int seconds_from_last_check = (now - last_check_time)` is modelled
explicitly by `toInt32`.
-/

/-- The module-level globals of diskmonitor.c (the scheduler state).
`last_check_time` is a `time_t` timestamp, initially 0 (never checked). -/
structure DiskmonitorState where
  init_done_received : Bool
  device_active : Bool
  last_check_time : Nat
deriving Repr, DecidableEq

/-- Initial values of the globals: `false`, `false`, `0`. -/
def initialState : DiskmonitorState :=
  { init_done_received := false, device_active := false, last_check_time := 0 }

/-- Five minutes (300 seconds). -/
def ACTIVE_CHECK_INTERVAL : Nat := 300

/-- Thirty minutes (1800 seconds). -/
def IDLE_CHECK_INTERVAL : Nat := 1800

/-- Fifteen minutes (900 seconds). -/
def MAXTIME_FROM_LAST_CHECK : Nat := 900

/-- Observable side effects of the handlers, in program order:
`probe` is a call to `check_disk_space_usage()` (the disk-usage prober),
`schedule mintime maxtime` is a broadcast `DSM_MSGTYPE_WAIT` heartbeat
request (its `pid` and `data` fields are the constant 0 and carry no
information), `reply` is the D-Bus method reply created by
`dsme_dbus_reply_new`, and `dbusSignal mount percent` is an emitted
`disk_space_change_ind` D-Bus signal. -/
inductive Effect where
  | probe : Effect
  | schedule : Nat → Nat → Effect
  | reply : Effect
  | dbusSignal : String → Int → Effect
deriving Repr, DecidableEq

/-- Embeds `disk_check_interval()`: the active interval when the device is
active, the idle interval otherwise. -/
def disk_check_interval (s : DiskmonitorState) : Nat :=
  if s.device_active then ACTIVE_CHECK_INTERVAL else IDLE_CHECK_INTERVAL

/-- Embeds `schedule_next_wakeup()`: broadcast one `DSM_MSGTYPE_WAIT` with
`mintime = disk_check_interval()` and `maxtime = mintime + 120`. -/
def schedule_next_wakeup (s : DiskmonitorState) : List Effect :=
  [Effect.schedule (disk_check_interval s) (disk_check_interval s + 120)]

/-- Embeds `check_disk_space()`: if `init_done_received`, call the prober
and set `last_check_time = time(0)`; otherwise do nothing. -/
def check_disk_space (s : DiskmonitorState) (now : Nat) :
    DiskmonitorState × List Effect :=
  if s.init_done_received then
    ({ s with last_check_time := now }, [Effect.probe])
  else
    (s, [])

/-- Embeds `req_check()` (the D-Bus method handler): call
`check_disk_space()` and then create the D-Bus reply.  The logging and the
sender-name lookup have no observable effect on the model. -/
def req_check (s : DiskmonitorState) (now : Nat) :
    DiskmonitorState × List Effect :=
  ((check_disk_space s now).1, (check_disk_space s now).2 ++ [Effect.reply])

/-- Embeds `init_done_ind()` (handler of the `base_boot_done` D-Bus
signal): set `init_done_received = true` and nothing else. -/
def init_done_ind (s : DiskmonitorState) : DiskmonitorState × List Effect :=
  ({ s with init_done_received := true }, [])

/-- Truncation of a mathematical integer to a C 32-bit signed `int`
(two's complement wrap-around), as in
`int seconds_from_last_check = (now - last_check_time);`. -/
def toInt32 (z : Int) : Int := (z + 2 ^ 31) % 2 ^ 32 - 2 ^ 31

/-- The C expression `!inactive`: the new device-active boolean is true
exactly when the integer payload of the inactivity signal is zero. -/
def new_device_active_state (inactive : Int) : Bool := decide (inactive = 0)

/-- Embeds `mce_inactivity_sig()` (handler of the mce
`system_inactivity_ind` D-Bus signal).  The payload `inactive` is the
signal's integer argument; `now` stands for `time(0)`.  If the derived
activity boolean equals the current `device_active`, return without any
effect.  Otherwise store the new activity state; when the device became
active and at least `MAXTIME_FROM_LAST_CHECK` seconds (as a C `int`)
passed since the last check, run `check_disk_space()`; finally call
`schedule_next_wakeup()`. -/
def mce_inactivity_sig (s : DiskmonitorState) (inactive : Int) (now : Nat) :
    DiskmonitorState × List Effect :=
  let seconds_from_last_check : Int :=
    toInt32 ((now : Int) - (s.last_check_time : Int))
  if new_device_active_state inactive = s.device_active then
    (s, [])
  else
    let s1 : DiskmonitorState :=
      { s with device_active := new_device_active_state inactive }
    let checked : DiskmonitorState × List Effect :=
      if s1.device_active = true ∧
          (MAXTIME_FROM_LAST_CHECK : Int) ≤ seconds_from_last_check then
        check_disk_space s1 now
      else
        (s1, [])
    (checked.1, checked.2 ++ schedule_next_wakeup checked.1)

/-- Embeds the `DSM_MSGTYPE_WAKEUP` handler: `check_disk_space()` then
`schedule_next_wakeup()`. -/
def wakeup_handler (s : DiskmonitorState) (now : Nat) :
    DiskmonitorState × List Effect :=
  ((check_disk_space s now).1,
   (check_disk_space s now).2 ++ schedule_next_wakeup (check_disk_space s now).1)

/-- Embeds the `DSM_MSGTYPE_DISK_SPACE` handler (the result relay): emit
one `disk_space_change_ind` signal carrying the mount path and the
`blocks_percent_used` value of the message, unmodified. -/
def disk_space_handler (s : DiskmonitorState) (mount_path : String)
    (blocks_percent_used : Int) : DiskmonitorState × List Effect :=
  (s, [Effect.dbusSignal mount_path blocks_percent_used])

/-- Embeds `module_init()`: starting from the initial globals, the only
action is one `schedule_next_wakeup()` call.  (The DBUS_CONNECT and
DBUS_DISCONNECT handlers only bind and unbind the D-Bus tables and touch
none of the scheduler state, so they are omitted from the model.) -/
def module_init : DiskmonitorState × List Effect :=
  (initialState, schedule_next_wakeup initialState)

/-- The inbound trigger events the module reacts to.  Events produced by
the wall clock carry the value `time(0)` would return during their
handling. -/
inductive Event where
  | wakeup : Nat → Event
  | initDone : Event
  | inactivitySig : Int → Nat → Event
  | reqCheck : Nat → Event
  | diskSpace : String → Int → Event
deriving Repr, DecidableEq

/-- Dispatch one event to its handler. -/
def step (s : DiskmonitorState) : Event → DiskmonitorState × List Effect
  | Event.wakeup now => wakeup_handler s now
  | Event.initDone => init_done_ind s
  | Event.inactivitySig inactive now => mce_inactivity_sig s inactive now
  | Event.reqCheck now => req_check s now
  | Event.diskSpace m p => disk_space_handler s m p

/-- Run a sequence of events, accumulating all effects in order. -/
def run (s : DiskmonitorState) : List Event → DiskmonitorState × List Effect
  | [] => (s, [])
  | e :: es =>
    ((run (step s e).1 es).1, (step s e).2 ++ (run (step s e).1 es).2)

/-- Recognizer for the probe effect. -/
def isProbe : Effect → Bool
  | Effect.probe => true
  | _ => false

/-- Number of prober invocations in an effect list. -/
def probeCount (es : List Effect) : Nat := (es.filter isProbe).length

/-- Recognizer for the D-Bus reply effect. -/
def isReply : Effect → Bool
  | Effect.reply => true
  | _ => false

/-- Number of D-Bus replies in an effect list. -/
def replyCount (es : List Effect) : Nat := (es.filter isReply).length

/-- The (mintime, maxtime) pairs of the schedule requests in an effect
list, in order. -/
def scheduleReqs : List Effect → List (Nat × Nat)
  | [] => []
  | Effect.schedule mn mx :: es => (mn, mx) :: scheduleReqs es
  | _ :: es => scheduleReqs es

/-- The (mount path, percent used) payloads of the emitted
`disk_space_change_ind` signals in an effect list, in order. -/
def outSignals : List Effect → List (String × Int)
  | [] => []
  | Effect.dbusSignal m p :: es => (m, p) :: outSignals es
  | _ :: es => outSignals es

/-- The `time(0)` value observed while handling an event, when the
handler reads the clock. -/
def eventTime : Event → Option Nat
  | Event.wakeup now => some now
  | Event.inactivitySig _ now => some now
  | Event.reqCheck now => some now
  | _ => none

/-- Boolean check that the clock readings along an event list are
non-decreasing and never below the starting bound. -/
def clockMono : Nat → List Event → Bool
  | _, [] => true
  | t0, e :: es =>
    match eventTime e with
    | none => clockMono t0 es
    | some t => decide (t0 ≤ t) && clockMono t es

theorem check_disk_space_of_init (s : DiskmonitorState) (now : Nat)
    (h : s.init_done_received = true) :
    check_disk_space s now = ({ s with last_check_time := now }, [Effect.probe]) := by
  simp [check_disk_space, h]

theorem check_disk_space_of_not_init (s : DiskmonitorState) (now : Nat)
    (h : s.init_done_received = false) :
    check_disk_space s now = (s, []) := by
  simp [check_disk_space, h]

theorem check_disk_space_fst_init (s : DiskmonitorState) (now : Nat) :
    (check_disk_space s now).1.init_done_received = s.init_done_received := by
  unfold check_disk_space; split <;> rfl

theorem check_disk_space_fst_active (s : DiskmonitorState) (now : Nat) :
    (check_disk_space s now).1.device_active = s.device_active := by
  unfold check_disk_space; split <;> rfl

theorem mce_inactivity_sig_same (s : DiskmonitorState) (inactive : Int) (now : Nat)
    (h : new_device_active_state inactive = s.device_active) :
    mce_inactivity_sig s inactive now = (s, []) := by
  simp only [mce_inactivity_sig]
  rw [if_pos h]

theorem mce_inactivity_sig_stale (s : DiskmonitorState) (inactive : Int) (now : Nat)
    (h : new_device_active_state inactive ≠ s.device_active)
    (ha : new_device_active_state inactive = true)
    (hs : (MAXTIME_FROM_LAST_CHECK : Int) ≤
      toInt32 ((now : Int) - (s.last_check_time : Int))) :
    mce_inactivity_sig s inactive now =
      ((check_disk_space { s with device_active := true } now).1,
       (check_disk_space { s with device_active := true } now).2 ++
         schedule_next_wakeup
           (check_disk_space { s with device_active := true } now).1) := by
  simp only [mce_inactivity_sig]
  rw [if_neg h, if_pos ⟨by simpa using ha, hs⟩, ha]

theorem mce_inactivity_sig_fresh (s : DiskmonitorState) (inactive : Int) (now : Nat)
    (h : new_device_active_state inactive ≠ s.device_active)
    (hns : ¬(new_device_active_state inactive = true ∧
      (MAXTIME_FROM_LAST_CHECK : Int) ≤
        toInt32 ((now : Int) - (s.last_check_time : Int)))) :
    mce_inactivity_sig s inactive now =
      ({ s with device_active := new_device_active_state inactive },
       schedule_next_wakeup
         { s with device_active := new_device_active_state inactive }) := by
  simp only [mce_inactivity_sig]
  rw [if_neg h, if_neg (by simpa using hns)]
  rfl

theorem mce_fst_init (s : DiskmonitorState) (inactive : Int) (now : Nat) :
    (mce_inactivity_sig s inactive now).1.init_done_received
      = s.init_done_received := by
  by_cases hsame : new_device_active_state inactive = s.device_active
  · rw [mce_inactivity_sig_same s inactive now hsame]
  · by_cases hc : new_device_active_state inactive = true ∧
        (MAXTIME_FROM_LAST_CHECK : Int) ≤
          toInt32 ((now : Int) - (s.last_check_time : Int))
    · rw [mce_inactivity_sig_stale s inactive now hsame hc.1 hc.2]
      exact check_disk_space_fst_init _ now
    · rw [mce_inactivity_sig_fresh s inactive now hsame hc]

theorem mce_fst_active (s : DiskmonitorState) (inactive : Int) (now : Nat) :
    (mce_inactivity_sig s inactive now).1.device_active
      = new_device_active_state inactive := by
  by_cases hsame : new_device_active_state inactive = s.device_active
  · rw [mce_inactivity_sig_same s inactive now hsame]
    exact hsame.symm
  · by_cases hc : new_device_active_state inactive = true ∧
        (MAXTIME_FROM_LAST_CHECK : Int) ≤
          toInt32 ((now : Int) - (s.last_check_time : Int))
    · rw [mce_inactivity_sig_stale s inactive now hsame hc.1 hc.2,
        check_disk_space_fst_active, hc.1]
    · rw [mce_inactivity_sig_fresh s inactive now hsame hc]

theorem probeCount_append (a b : List Effect) :
    probeCount (a ++ b) = probeCount a + probeCount b := by
  simp [probeCount, List.filter_append]

theorem isProbe_eq_true_iff (x : Effect) : isProbe x = true ↔ x = Effect.probe := by
  cases x <;> simp [isProbe]

theorem probeCount_eq_zero_iff (es : List Effect) :
    probeCount es = 0 ↔ Effect.probe ∉ es := by
  constructor
  · intro h hm
    have : isProbe Effect.probe = false := by
      have hf : es.filter isProbe = [] := List.length_eq_zero.1 h
      have := List.filter_eq_nil_iff.1 hf Effect.probe hm
      simpa using this
    simp [isProbe] at this
  · intro h
    refine List.length_eq_zero.2 (List.filter_eq_nil_iff.2 ?_)
    intro a ha hpa
    exact h (((isProbe_eq_true_iff a).1 hpa) ▸ ha)

theorem no_probe_of_preboot (s : DiskmonitorState) (e : Event)
    (h : s.init_done_received = false) : Effect.probe ∉ (step s e).2 := by
  cases e with
  | wakeup now =>
    simp [step, wakeup_handler, check_disk_space_of_not_init s now h,
      schedule_next_wakeup]
  | initDone => simp [step, init_done_ind]
  | inactivitySig inactive now =>
    show Effect.probe ∉ (mce_inactivity_sig s inactive now).2
    by_cases hsame : new_device_active_state inactive = s.device_active
    · rw [mce_inactivity_sig_same s inactive now hsame]
      simp
    · by_cases hc : new_device_active_state inactive = true ∧
          (MAXTIME_FROM_LAST_CHECK : Int) ≤
            toInt32 ((now : Int) - (s.last_check_time : Int))
      · rw [mce_inactivity_sig_stale s inactive now hsame hc.1 hc.2]
        have h1 : ({ s with device_active := true } :
            DiskmonitorState).init_done_received = false := h
        simp [check_disk_space_of_not_init _ now h1, schedule_next_wakeup]
      · rw [mce_inactivity_sig_fresh s inactive now hsame hc]
        simp [schedule_next_wakeup]
  | reqCheck now =>
    simp [step, req_check, check_disk_space_of_not_init s now h]
  | diskSpace m p => simp [step, disk_space_handler]

theorem step_preserves_init (s : DiskmonitorState) (e : Event)
    (hne : e ≠ Event.initDone) :
    (step s e).1.init_done_received = s.init_done_received := by
  cases e with
  | wakeup now => exact check_disk_space_fst_init s now
  | initDone => exact absurd rfl hne
  | inactivitySig inactive now => exact mce_fst_init s inactive now
  | reqCheck now => exact check_disk_space_fst_init s now
  | diskSpace m p => rfl

theorem step_init_latch (s : DiskmonitorState) (e : Event)
    (h : s.init_done_received = true) :
    (step s e).1.init_done_received = true := by
  cases e with
  | wakeup now => exact (check_disk_space_fst_init s now).trans h
  | initDone => rfl
  | inactivitySig inactive now => exact (mce_fst_init s inactive now).trans h
  | reqCheck now => exact (check_disk_space_fst_init s now).trans h
  | diskSpace m p => exact h

theorem run_no_probe_of_preboot (evs : List Event) :
    ∀ s : DiskmonitorState, s.init_done_received = false →
      Event.initDone ∉ evs →
      probeCount (run s evs).2 = 0 ∧ (run s evs).1.init_done_received = false := by
  induction evs with
  | nil => intro s h _; exact ⟨rfl, h⟩
  | cons e es ih =>
    intro s h hm
    have hne : e ≠ Event.initDone := fun he => hm (he ▸ List.mem_cons_self e es)
    have h1 : (step s e).1.init_done_received = false := by
      rw [step_preserves_init s e hne]; exact h
    have hrest := ih (step s e).1 h1 (fun hmem => hm (List.mem_cons_of_mem _ hmem))
    refine ⟨?_, hrest.2⟩
    show probeCount ((step s e).2 ++ (run (step s e).1 es).2) = 0
    rw [probeCount_append, hrest.1,
      (probeCount_eq_zero_iff _).2 (no_probe_of_preboot s e h)]

theorem run_init_latch (evs : List Event) : ∀ s : DiskmonitorState,
    s.init_done_received = true → (run s evs).1.init_done_received = true := by
  induction evs with
  | nil => intro s h; exact h
  | cons e es ih => intro s h; exact ih _ (step_init_latch s e h)

/-- C1: a probe is triggered only while boot is completed.  Any step that
invokes the prober started from a state with `init_done_received = true`;
a run from the initial state containing no boot-done event invokes the
prober zero times, no matter how many wakeups, check requests or activity
transitions arrive; and once boot is completed the probe paths do invoke
the prober: every wakeup and every explicit check request does, and so does
an idle-to-active transition with a stale last check. -/
theorem probe_only_after_boot :
    (∀ (s : DiskmonitorState) (e : Event),
        Effect.probe ∈ (step s e).2 → s.init_done_received = true) ∧
    (∀ evs : List Event, Event.initDone ∉ evs →
        probeCount (run initialState evs).2 = 0) ∧
    (∀ (s : DiskmonitorState) (now : Nat), s.init_done_received = true →
        Effect.probe ∈ (step s (Event.wakeup now)).2 ∧
        Effect.probe ∈ (step s (Event.reqCheck now)).2) ∧
    (∀ (s : DiskmonitorState) (now : Nat),
        s.init_done_received = true → s.device_active = false →
        (MAXTIME_FROM_LAST_CHECK : Int) ≤
          toInt32 ((now : Int) - (s.last_check_time : Int)) →
        Effect.probe ∈ (step s (Event.inactivitySig 0 now)).2) := by
  refine ⟨?_, ?_, ?_, ?_⟩
  · intro s e hm
    cases hb : s.init_done_received with
    | false => exact absurd hm (no_probe_of_preboot s e hb)
    | true => rfl
  · intro evs hm
    exact (run_no_probe_of_preboot evs initialState rfl hm).1
  · intro s now h
    constructor
    · show Effect.probe ∈ (wakeup_handler s now).2
      simp [wakeup_handler, check_disk_space_of_init s now h]
    · show Effect.probe ∈ (req_check s now).2
      simp [req_check, check_disk_space_of_init s now h]
  · intro s now h hd hs
    show Effect.probe ∈ (mce_inactivity_sig s 0 now).2
    have hne : new_device_active_state 0 ≠ s.device_active := by
      rw [hd]; simp [new_device_active_state]
    rw [mce_inactivity_sig_stale s 0 now hne (by simp [new_device_active_state]) hs]
    have h1 : ({ s with device_active := true } :
        DiskmonitorState).init_done_received = true := h
    simp [check_disk_space_of_init _ now h1]

theorem probe_only_after_boot_witness :
    Effect.probe ∈ (step (⟨true, false, 0⟩ : DiskmonitorState) (Event.wakeup 5)).2 :=
  (probe_only_after_boot.2.2.1 ⟨true, false, 0⟩ 5 rfl).1

/-- C3: an activity signal that repeats the current activity state is a
complete no-op: the state is unchanged and no effect (no schedule request,
no probe, nothing) is produced; consequently, in any pair of consecutive
activity signals with the same payload the second one produces no
reschedule and no probe. -/
theorem repeated_activity_signal_noop :
    (∀ (s : DiskmonitorState) (inactive : Int) (now : Nat),
        new_device_active_state inactive = s.device_active →
        mce_inactivity_sig s inactive now = (s, [])) ∧
    (∀ (s : DiskmonitorState) (inactive : Int) (now1 now2 : Nat),
        mce_inactivity_sig (mce_inactivity_sig s inactive now1).1 inactive now2
          = ((mce_inactivity_sig s inactive now1).1, [])) := by
  constructor
  · exact fun s i n h => mce_inactivity_sig_same s i n h
  · intro s i n1 n2
    exact mce_inactivity_sig_same _ i n2 (mce_fst_active s i n1).symm

theorem repeated_activity_signal_noop_witness :
    mce_inactivity_sig (⟨true, true, 0⟩ : DiskmonitorState) 0 50
      = ((⟨true, true, 0⟩ : DiskmonitorState), []) :=
  repeated_activity_signal_noop.1 _ 0 50 rfl

/-- C4: a wakeup first runs the disk check (invoking the prober and setting
`last_check_time` to the firing time exactly when boot is completed) and
then issues exactly one schedule request; with boot completed and the
device idle this yields one probe, `last_check_time = now` and a
(1800, 1920) schedule request. -/
theorem wakeup_probe_then_reschedule :
    (∀ (s : DiskmonitorState) (now : Nat),
        wakeup_handler s now =
          if s.init_done_received then
            ({ s with last_check_time := now },
             [Effect.probe,
              Effect.schedule (disk_check_interval s) (disk_check_interval s + 120)])
          else
            (s, [Effect.schedule (disk_check_interval s)
                  (disk_check_interval s + 120)])) ∧
    (∀ (s : DiskmonitorState) (now : Nat),
        scheduleReqs (wakeup_handler s now).2
          = [(disk_check_interval s, disk_check_interval s + 120)]) ∧
    (∀ (s : DiskmonitorState) (now : Nat),
        s.init_done_received = true → s.device_active = false →
        wakeup_handler s now =
          ({ s with last_check_time := now },
           [Effect.probe, Effect.schedule 1800 1920])) := by
  have hchar : ∀ (s : DiskmonitorState) (now : Nat),
      wakeup_handler s now =
        if s.init_done_received then
          ({ s with last_check_time := now },
           [Effect.probe,
            Effect.schedule (disk_check_interval s) (disk_check_interval s + 120)])
        else
          (s, [Effect.schedule (disk_check_interval s)
                (disk_check_interval s + 120)]) := by
    intro s now
    cases h : s.init_done_received with
    | true =>
      simp [wakeup_handler, check_disk_space_of_init s now h,
        schedule_next_wakeup, disk_check_interval, h]
    | false =>
      simp [wakeup_handler, check_disk_space_of_not_init s now h,
        schedule_next_wakeup, disk_check_interval, h]
  refine ⟨hchar, ?_, ?_⟩
  · intro s now
    rw [hchar s now]
    cases h : s.init_done_received with
    | true => simp [h, scheduleReqs]
    | false => simp [h, scheduleReqs]
  · intro s now h hd
    rw [hchar s now]
    simp [h, hd, disk_check_interval, IDLE_CHECK_INTERVAL]

theorem wakeup_probe_then_reschedule_witness :
    wakeup_handler (⟨true, false, 7⟩ : DiskmonitorState) 42
      = ((⟨true, false, 42⟩ : DiskmonitorState),
         [Effect.probe, Effect.schedule 1800 1920]) :=
  wakeup_probe_then_reschedule.2.2 _ 42 rfl rfl

/-- C8: the boot-done handler sets `init_done_received` to true and does
nothing else (no effect at all, the other state fields untouched); it is
idempotent, and once `init_done_received` is true no run of events ever
makes it false again. -/
theorem boot_completed_latch :
    (∀ s : DiskmonitorState,
        init_done_ind s = ({ s with init_done_received := true }, [])) ∧
    (∀ s : DiskmonitorState,
        (init_done_ind s).1.device_active = s.device_active ∧
        (init_done_ind s).1.last_check_time = s.last_check_time ∧
        init_done_ind (init_done_ind s).1 = ((init_done_ind s).1, [])) ∧
    (∀ (s : DiskmonitorState) (evs : List Event),
        s.init_done_received = true → (run s evs).1.init_done_received = true) := by
  refine ⟨fun s => rfl, fun s => ⟨rfl, rfl, rfl⟩, ?_⟩
  intro s evs h
  exact run_init_latch evs s h

theorem boot_completed_latch_witness :
    (run (⟨true, false, 0⟩ : DiskmonitorState)
      [Event.wakeup 3]).1.init_done_received = true :=
  boot_completed_latch.2.2 _ [Event.wakeup 3] rfl

/-- C10: module startup issues exactly one schedule request before any
trigger event is processed; since the device starts inactive it is the
(1800, 1920) request, and no probe is attempted. -/
theorem module_init_schedules_idle :
    module_init = (initialState, [Effect.schedule 1800 1920]) ∧
    probeCount module_init.2 = 0 ∧
    scheduleReqs module_init.2 = [(1800, 1920)] ∧
    initialState.device_active = false :=
  ⟨rfl, rfl, rfl, rfl⟩

/-- C6: the explicit check request runs the disk check (the prober firing
exactly when boot is completed), issues no schedule request, and always
ends with exactly one D-Bus reply; with boot not completed the reply is
still produced and zero probes are invoked. -/
theorem req_check_acks :
    (∀ (s : DiskmonitorState) (now : Nat),
        req_check s now =
          if s.init_done_received then
            ({ s with last_check_time := now }, [Effect.probe, Effect.reply])
          else
            (s, [Effect.reply])) ∧
    (∀ (s : DiskmonitorState) (now : Nat),
        scheduleReqs (req_check s now).2 = [] ∧
        replyCount (req_check s now).2 = 1) ∧
    (∀ (s : DiskmonitorState) (now : Nat), s.init_done_received = false →
        req_check s now = (s, [Effect.reply]) ∧
        probeCount (req_check s now).2 = 0) := by
  have hchar : ∀ (s : DiskmonitorState) (now : Nat),
      req_check s now =
        if s.init_done_received then
          ({ s with last_check_time := now }, [Effect.probe, Effect.reply])
        else
          (s, [Effect.reply]) := by
    intro s now
    cases h : s.init_done_received with
    | true => simp [req_check, check_disk_space_of_init s now h, h]
    | false => simp [req_check, check_disk_space_of_not_init s now h, h]
  refine ⟨hchar, ?_, ?_⟩
  · intro s now
    rw [hchar s now]
    cases h : s.init_done_received with
    | true => simp [h, scheduleReqs, replyCount, isReply]
    | false => simp [h, scheduleReqs, replyCount, isReply]
  · intro s now h
    rw [hchar s now]
    simp [h, probeCount, isProbe]

theorem req_check_acks_witness :
    req_check (⟨false, false, 0⟩ : DiskmonitorState) 9
        = ((⟨false, false, 0⟩ : DiskmonitorState), [Effect.reply]) ∧
    probeCount (req_check (⟨false, false, 0⟩ : DiskmonitorState) 9).2 = 0 :=
  req_check_acks.2.2 _ 9 rfl

/-- C7: the result relay is a stateless one-to-one order-preserving
translation: each probe-result event produces exactly one outbound
disk-space-change signal with the same mount path and percent value; a
list of result events yields exactly the list of corresponding signals in
the same order; two results for two mounts yield exactly those two
signals, in order, unmodified. -/
theorem result_relay_one_to_one :
    (∀ (s : DiskmonitorState) (m : String) (p : Int),
        disk_space_handler s m p = (s, [Effect.dbusSignal m p])) ∧
    (∀ (s : DiskmonitorState) (results : List (String × Int)),
        run s (results.map fun r => Event.diskSpace r.1 r.2)
          = (s, results.map fun r => Effect.dbusSignal r.1 r.2)) ∧
    (∀ (s : DiskmonitorState) (m1 m2 : String) (p1 p2 : Int),
        outSignals (run s [Event.diskSpace m1 p1, Event.diskSpace m2 p2]).2
          = [(m1, p1), (m2, p2)]) := by
  refine ⟨fun s m p => rfl, ?_, fun s m1 m2 p1 p2 => rfl⟩
  intro s results
  induction results generalizing s with
  | nil => rfl
  | cons r rs ih =>
    simp only [List.map_cons, run, step, disk_space_handler, ih]
    simp

theorem scheduleReqs_append (a b : List Effect) :
    scheduleReqs (a ++ b) = scheduleReqs a ++ scheduleReqs b := by
  induction a with
  | nil => rfl
  | cons x xs ih => cases x <;> simp [scheduleReqs, ih]

theorem scheduleReqs_check (s : DiskmonitorState) (now : Nat) :
    scheduleReqs (check_disk_space s now).2 = [] := by
  unfold check_disk_space; split <;> rfl

theorem scheduleReqs_schedule_next (s : DiskmonitorState) :
    scheduleReqs (schedule_next_wakeup s)
      = [(disk_check_interval s, disk_check_interval s + 120)] := rfl

theorem step_scheduleReqs (s : DiskmonitorState) (e : Event) :
    scheduleReqs (step s e).2 = [] ∨
      scheduleReqs (step s e).2 =
        [(disk_check_interval (step s e).1,
          disk_check_interval (step s e).1 + 120)] := by
  cases e with
  | wakeup now =>
    right
    show scheduleReqs (wakeup_handler s now).2
      = [(disk_check_interval (wakeup_handler s now).1,
          disk_check_interval (wakeup_handler s now).1 + 120)]
    simp only [wakeup_handler]
    rw [scheduleReqs_append, scheduleReqs_check, scheduleReqs_schedule_next]
    simp
  | initDone => left; rfl
  | inactivitySig inactive now =>
    by_cases hsame : new_device_active_state inactive = s.device_active
    · left
      show scheduleReqs (mce_inactivity_sig s inactive now).2 = []
      rw [mce_inactivity_sig_same s inactive now hsame]
      rfl
    · by_cases hc : new_device_active_state inactive = true ∧
          (MAXTIME_FROM_LAST_CHECK : Int) ≤
            toInt32 ((now : Int) - (s.last_check_time : Int))
      · right
        show scheduleReqs (mce_inactivity_sig s inactive now).2
          = [(disk_check_interval (mce_inactivity_sig s inactive now).1,
              disk_check_interval (mce_inactivity_sig s inactive now).1 + 120)]
        rw [mce_inactivity_sig_stale s inactive now hsame hc.1 hc.2]
        simp [scheduleReqs_append, scheduleReqs_check, scheduleReqs_schedule_next]
      · right
        show scheduleReqs (mce_inactivity_sig s inactive now).2
          = [(disk_check_interval (mce_inactivity_sig s inactive now).1,
              disk_check_interval (mce_inactivity_sig s inactive now).1 + 120)]
        rw [mce_inactivity_sig_fresh s inactive now hsame hc]
        rfl
  | reqCheck now =>
    left
    show scheduleReqs (req_check s now).2 = []
    simp only [req_check]
    rw [scheduleReqs_append, scheduleReqs_check]
    rfl
  | diskSpace m p => left; rfl

/-- C5: every schedule request ever emitted, by any handler in any state
and by module startup, has maxtime equal to mintime plus 120 and mintime
equal to the active interval (300) when the device is active and the idle
interval (1800) when it is not, so the only values ever sent are
(300, 420) and (1800, 1920). -/
theorem schedule_request_shape :
    (∀ (s : DiskmonitorState) (e : Event) (mn mx : Nat),
        (mn, mx) ∈ scheduleReqs (step s e).2 →
        mx = mn + 120 ∧
        mn = (if (step s e).1.device_active then ACTIVE_CHECK_INTERVAL
              else IDLE_CHECK_INTERVAL) ∧
        ((mn, mx) = (300, 420) ∨ (mn, mx) = (1800, 1920))) ∧
    (∀ mn mx : Nat, (mn, mx) ∈ scheduleReqs module_init.2 →
        (mn, mx) = (1800, 1920)) := by
  constructor
  · intro s e mn mx hm
    rcases step_scheduleReqs s e with h | h
    · rw [h] at hm
      exact absurd hm (List.not_mem_nil _)
    · rw [h] at hm
      have hpair := List.mem_singleton.1 hm
      rw [Prod.mk.injEq] at hpair
      obtain ⟨h1, h2⟩ := hpair
      subst h1
      subst h2
      refine ⟨rfl, rfl, ?_⟩
      simp only [disk_check_interval]
      cases hd : (step s e).1.device_active with
      | false => right; rfl
      | true => left; rfl
  · intro mn mx hm
    have hmi : scheduleReqs module_init.2 = [(1800, 1920)] := rfl
    rw [hmi] at hm
    exact List.mem_singleton.1 hm

theorem schedule_request_shape_witness :
    (300, 420) ∈
      scheduleReqs (step (⟨false, true, 0⟩ : DiskmonitorState) (Event.wakeup 10)).2 ∧
    (420 = 300 + 120 ∧
     300 = (if (step (⟨false, true, 0⟩ : DiskmonitorState)
              (Event.wakeup 10)).1.device_active then ACTIVE_CHECK_INTERVAL
            else IDLE_CHECK_INTERVAL) ∧
     (((300 : Nat), (420 : Nat)) = (300, 420) ∨
      ((300 : Nat), (420 : Nat)) = (1800, 1920))) :=
  ⟨by decide, schedule_request_shape.1 _ _ 300 420 (by decide)⟩

theorem step_last_of_eventTime_none (s : DiskmonitorState) (e : Event)
    (h : eventTime e = none) :
    (step s e).1.last_check_time = s.last_check_time := by
  cases e with
  | wakeup now => simp [eventTime] at h
  | initDone => rfl
  | inactivitySig inactive now => simp [eventTime] at h
  | reqCheck now => simp [eventTime] at h
  | diskSpace m p => rfl

theorem step_last_of_no_probe (s : DiskmonitorState) (e : Event)
    (h : Effect.probe ∉ (step s e).2) :
    (step s e).1.last_check_time = s.last_check_time := by
  cases e with
  | wakeup now =>
    rcases Bool.eq_false_or_eq_true s.init_done_received with hinit | hinit
    · exfalso
      apply h
      show Effect.probe ∈ (wakeup_handler s now).2
      simp [wakeup_handler, check_disk_space_of_init s now hinit]
    · show (wakeup_handler s now).1.last_check_time = _
      simp [wakeup_handler, check_disk_space_of_not_init s now hinit]
  | initDone => rfl
  | inactivitySig inactive now =>
    by_cases hsame : new_device_active_state inactive = s.device_active
    · show (mce_inactivity_sig s inactive now).1.last_check_time = _
      rw [mce_inactivity_sig_same s inactive now hsame]
    · by_cases hc : new_device_active_state inactive = true ∧
          (MAXTIME_FROM_LAST_CHECK : Int) ≤
            toInt32 ((now : Int) - (s.last_check_time : Int))
      · rcases Bool.eq_false_or_eq_true s.init_done_received with hinit | hinit
        · exfalso
          apply h
          show Effect.probe ∈ (mce_inactivity_sig s inactive now).2
          rw [mce_inactivity_sig_stale s inactive now hsame hc.1 hc.2]
          have h1 : ({ s with device_active := true } :
              DiskmonitorState).init_done_received = true := hinit
          simp [check_disk_space_of_init _ now h1]
        · show (mce_inactivity_sig s inactive now).1.last_check_time = _
          rw [mce_inactivity_sig_stale s inactive now hsame hc.1 hc.2]
          have h1 : ({ s with device_active := true } :
              DiskmonitorState).init_done_received = false := hinit
          rw [check_disk_space_of_not_init _ now h1]
      · show (mce_inactivity_sig s inactive now).1.last_check_time = _
        rw [mce_inactivity_sig_fresh s inactive now hsame hc]
  | reqCheck now =>
    rcases Bool.eq_false_or_eq_true s.init_done_received with hinit | hinit
    · exfalso
      apply h
      show Effect.probe ∈ (req_check s now).2
      simp [req_check, check_disk_space_of_init s now hinit]
    · show (req_check s now).1.last_check_time = _
      simp [req_check, check_disk_space_of_not_init s now hinit]
  | diskSpace m p => rfl

theorem step_last_of_probe (s : DiskmonitorState) (e : Event)
    (h : Effect.probe ∈ (step s e).2) :
    ∃ t, eventTime e = some t ∧ (step s e).1.last_check_time = t := by
  cases e with
  | wakeup now =>
    refine ⟨now, rfl, ?_⟩
    rcases Bool.eq_false_or_eq_true s.init_done_received with hinit | hinit
    · show (wakeup_handler s now).1.last_check_time = now
      simp [wakeup_handler, check_disk_space_of_init s now hinit]
    · exact absurd h (no_probe_of_preboot s _ hinit)
  | initDone => exact absurd h (by simp [step, init_done_ind])
  | inactivitySig inactive now =>
    refine ⟨now, rfl, ?_⟩
    rcases Bool.eq_false_or_eq_true s.init_done_received with hinit | hinit
    swap
    · exact absurd h (no_probe_of_preboot s _ hinit)
    · by_cases hsame : new_device_active_state inactive = s.device_active
      · exfalso
        have h2 : Effect.probe ∈ (mce_inactivity_sig s inactive now).2 := h
        rw [mce_inactivity_sig_same s inactive now hsame] at h2
        simp at h2
      · by_cases hc : new_device_active_state inactive = true ∧
            (MAXTIME_FROM_LAST_CHECK : Int) ≤
              toInt32 ((now : Int) - (s.last_check_time : Int))
        · show (mce_inactivity_sig s inactive now).1.last_check_time = now
          rw [mce_inactivity_sig_stale s inactive now hsame hc.1 hc.2]
          have h1 : ({ s with device_active := true } :
              DiskmonitorState).init_done_received = true := hinit
          rw [check_disk_space_of_init _ now h1]
        · exfalso
          have h2 : Effect.probe ∈ (mce_inactivity_sig s inactive now).2 := h
          rw [mce_inactivity_sig_fresh s inactive now hsame hc] at h2
          simp [schedule_next_wakeup] at h2
  | reqCheck now =>
    refine ⟨now, rfl, ?_⟩
    rcases Bool.eq_false_or_eq_true s.init_done_received with hinit | hinit
    · show (req_check s now).1.last_check_time = now
      simp [req_check, check_disk_space_of_init s now hinit]
    · exact absurd h (no_probe_of_preboot s _ hinit)
  | diskSpace m p => exact absurd h (by simp [step, disk_space_handler])

theorem clockMono_mono : ∀ (evs : List Event) (t t' : Nat), t' ≤ t →
    clockMono t evs = true → clockMono t' evs = true := by
  intro evs
  induction evs with
  | nil => intro t t' _ _; rfl
  | cons e es ih =>
    intro t t' hle hm
    cases heq : eventTime e with
    | none =>
      simp only [clockMono, heq] at hm ⊢
      exact ih t t' hle hm
    | some t1 =>
      simp only [clockMono, heq, Bool.and_eq_true, decide_eq_true_eq] at hm ⊢
      exact ⟨le_trans hle hm.1, hm.2⟩

theorem run_last_mono : ∀ (evs : List Event) (s : DiskmonitorState),
    clockMono s.last_check_time evs = true →
    s.last_check_time ≤ (run s evs).1.last_check_time := by
  intro evs
  induction evs with
  | nil => intro s _; exact le_refl _
  | cons e es ih =>
    intro s hm
    show s.last_check_time ≤ (run (step s e).1 es).1.last_check_time
    cases heq : eventTime e with
    | none =>
      have hl : (step s e).1.last_check_time = s.last_check_time :=
        step_last_of_eventTime_none s e heq
      have hm1 : clockMono (step s e).1.last_check_time es = true := by
        rw [hl]
        simpa only [clockMono, heq] using hm
      have hrec := ih (step s e).1 hm1
      rw [hl] at hrec
      exact hrec
    | some t =>
      have hm1 := hm
      simp only [clockMono, heq, Bool.and_eq_true, decide_eq_true_eq] at hm1
      have hstep : (step s e).1.last_check_time = s.last_check_time ∨
          (step s e).1.last_check_time = t := by
        by_cases hp : Effect.probe ∈ (step s e).2
        · obtain ⟨t2, ht2, hl⟩ := step_last_of_probe s e hp
          rw [heq] at ht2
          injection ht2 with hh
          subst hh
          right
          exact hl
        · left
          exact step_last_of_no_probe s e hp
      rcases hstep with hl | hl
      · have hm2 : clockMono (step s e).1.last_check_time es = true :=
          clockMono_mono es t _ (hl ▸ hm1.1) hm1.2
        have hrec := ih (step s e).1 hm2
        rw [hl] at hrec
        exact hrec
      · have hm2 : clockMono (step s e).1.last_check_time es = true := by
          rw [hl]
          exact hm1.2
        have hrec := ih (step s e).1 hm2
        calc s.last_check_time ≤ t := hm1.1
          _ = (step s e).1.last_check_time := hl.symm
          _ ≤ _ := hrec

/-- C9: `last_check_time` starts at zero and is updated exactly in the
steps that actually invoke the prober, where it is set to the clock value
of that step; in a step without a probe it is unchanged; and along any run
whose clock readings are non-decreasing (and start no earlier than the
current `last_check_time`), `last_check_time` is non-decreasing. -/
theorem last_check_time_tracking :
    initialState.last_check_time = 0 ∧
    (∀ (s : DiskmonitorState) (e : Event), Effect.probe ∉ (step s e).2 →
        (step s e).1.last_check_time = s.last_check_time) ∧
    (∀ (s : DiskmonitorState) (e : Event), Effect.probe ∈ (step s e).2 →
        ∃ t, eventTime e = some t ∧ (step s e).1.last_check_time = t) ∧
    (∀ (s : DiskmonitorState) (evs : List Event),
        clockMono s.last_check_time evs = true →
        s.last_check_time ≤ (run s evs).1.last_check_time) :=
  ⟨rfl, step_last_of_no_probe, step_last_of_probe,
   fun s evs h => run_last_mono evs s h⟩

theorem last_check_time_tracking_witness :
    initialState.last_check_time
      ≤ (run initialState [Event.wakeup 5, Event.reqCheck 9]).1.last_check_time :=
  last_check_time_tracking.2.2.2 initialState [Event.wakeup 5, Event.reqCheck 9] rfl

theorem toInt32_eq_self (z : Int) (h0 : 0 ≤ z) (h1 : z < 2 ^ 31) :
    toInt32 z = z := by
  unfold toInt32
  have h2 : (2 : Int) ^ 31 = 2147483648 := by norm_num
  have h3 : (2 : Int) ^ 32 = 4294967296 := by norm_num
  rw [h2, h3] at *
  have h4 : (z + 2147483648) % 4294967296 = z + 2147483648 :=
    Int.emod_eq_of_lt (by omega) (by omega)
  omega

/-- C2: an activity signal carrying a state different from the current one
sets `device_active` to the new value and issues exactly one schedule
request with the interval of the new state; with boot completed it invokes
the prober exactly once, before the reschedule, exactly when the new state
is active and at least 900 seconds passed since the last check (a zero,
never-set `last_check_time` counting as stale); a transition to idle never
probes.  The clock hypotheses (`last_check_time ≤ now < 2^31` and
`900 ≤ now`) state that the wall clock is past 900 seconds after the
epoch, has not run backwards, and the elapsed time fits in a C `int`. -/
theorem activity_transition_behavior :
    ∀ (s : DiskmonitorState) (inactive : Int) (now : Nat),
      new_device_active_state inactive ≠ s.device_active →
      s.last_check_time ≤ now → now < 2 ^ 31 → 900 ≤ now →
      (mce_inactivity_sig s inactive now).1.device_active
          = new_device_active_state inactive ∧
      scheduleReqs (mce_inactivity_sig s inactive now).2
          = [((if new_device_active_state inactive then ACTIVE_CHECK_INTERVAL
               else IDLE_CHECK_INTERVAL),
              (if new_device_active_state inactive then ACTIVE_CHECK_INTERVAL
               else IDLE_CHECK_INTERVAL) + 120)] ∧
      (s.init_done_received = true →
        probeCount (mce_inactivity_sig s inactive now).2
          = (if new_device_active_state inactive = true ∧
                (s.last_check_time = 0 ∨
                  (900 : Int) ≤ (now : Int) - (s.last_check_time : Int))
             then 1 else 0)) ∧
      (new_device_active_state inactive = false →
        probeCount (mce_inactivity_sig s inactive now).2 = 0) ∧
      (probeCount (mce_inactivity_sig s inactive now).2 = 1 →
        (mce_inactivity_sig s inactive now).2
          = [Effect.probe,
             Effect.schedule ACTIVE_CHECK_INTERVAL (ACTIVE_CHECK_INTERVAL + 120)]) := by
  intro s inactive now hne hclk hera h900
  have h31 : (2 : Nat) ^ 31 = 2147483648 := by norm_num
  rw [h31] at hera
  have hto : toInt32 ((now : Int) - (s.last_check_time : Int))
      = (now : Int) - (s.last_check_time : Int) := by
    refine toInt32_eq_self _ (by omega) ?_
    have : ((now : Int) - (s.last_check_time : Int)) < 2147483648 := by omega
    omega
  have hcond_iff : ((MAXTIME_FROM_LAST_CHECK : Int) ≤
        toInt32 ((now : Int) - (s.last_check_time : Int)))
      ↔ (s.last_check_time = 0 ∨
          (900 : Int) ≤ (now : Int) - (s.last_check_time : Int)) := by
    rw [hto]
    simp only [MAXTIME_FROM_LAST_CHECK]
    omega
  rcases Bool.eq_false_or_eq_true (new_device_active_state inactive) with hna | hna
  swap
  · -- the device went idle
    have hns : ¬(new_device_active_state inactive = true ∧
        (MAXTIME_FROM_LAST_CHECK : Int) ≤
          toInt32 ((now : Int) - (s.last_check_time : Int))) := by
      simp [hna]
    rw [mce_inactivity_sig_fresh s inactive now hne hns, hna]
    refine ⟨rfl, ?_, ?_, ?_, ?_⟩ <;>
      simp [schedule_next_wakeup, disk_check_interval, scheduleReqs,
        probeCount, isProbe]
  · -- the device went active
    by_cases hcode : (MAXTIME_FROM_LAST_CHECK : Int) ≤
        toInt32 ((now : Int) - (s.last_check_time : Int))
    · rw [mce_inactivity_sig_stale s inactive now hne hna hcode, hna]
      have hclaim : s.last_check_time = 0 ∨
          (900 : Int) ≤ (now : Int) - (s.last_check_time : Int) :=
        hcond_iff.1 hcode
      rcases Bool.eq_false_or_eq_true s.init_done_received with hinit | hinit
      · rw [check_disk_space_of_init _ now
          (show ({ s with device_active := true } :
            DiskmonitorState).init_done_received = true from hinit)]
        refine ⟨rfl, ?_, ?_, ?_, ?_⟩
        · simp [schedule_next_wakeup, disk_check_interval, scheduleReqs]
        · intro _
          rw [if_pos ⟨rfl, hclaim⟩]
          simp [schedule_next_wakeup, probeCount, isProbe]
        · intro hfalse
          exact absurd hfalse (by simp)
        · intro _
          simp [schedule_next_wakeup, disk_check_interval]
      · rw [check_disk_space_of_not_init _ now
          (show ({ s with device_active := true } :
            DiskmonitorState).init_done_received = false from hinit)]
        refine ⟨rfl, ?_, ?_, ?_, ?_⟩
        · simp [schedule_next_wakeup, disk_check_interval, scheduleReqs]
        · intro htrue
          rw [hinit] at htrue
          exact absurd htrue (by simp)
        · intro hfalse
          exact absurd hfalse (by simp)
        · intro hone
          exfalso
          simp [schedule_next_wakeup, probeCount, isProbe] at hone
    · have hns : ¬(new_device_active_state inactive = true ∧
          (MAXTIME_FROM_LAST_CHECK : Int) ≤
            toInt32 ((now : Int) - (s.last_check_time : Int))) :=
        fun hand => hcode hand.2
      rw [mce_inactivity_sig_fresh s inactive now hne hns, hna]
      have hclaimneg : ¬(s.last_check_time = 0 ∨
          (900 : Int) ≤ (now : Int) - (s.last_check_time : Int)) :=
        fun hc => hcode (hcond_iff.2 hc)
      refine ⟨rfl, ?_, ?_, ?_, ?_⟩
      · simp [schedule_next_wakeup, disk_check_interval, scheduleReqs]
      · intro _
        rw [if_neg (fun hand => hclaimneg hand.2)]
        simp [schedule_next_wakeup, probeCount, isProbe]
      · intro hfalse
        exact absurd hfalse (by simp)
      · intro hone
        exfalso
        simp [schedule_next_wakeup, probeCount, isProbe] at hone

theorem activity_transition_behavior_witness :
    (mce_inactivity_sig (⟨true, false, 0⟩ : DiskmonitorState) 0 1000).1.device_active
        = new_device_active_state 0 ∧
    scheduleReqs (mce_inactivity_sig (⟨true, false, 0⟩ : DiskmonitorState) 0 1000).2
        = [((if new_device_active_state 0 then ACTIVE_CHECK_INTERVAL
             else IDLE_CHECK_INTERVAL),
            (if new_device_active_state 0 then ACTIVE_CHECK_INTERVAL
             else IDLE_CHECK_INTERVAL) + 120)] :=
  ⟨(activity_transition_behavior ⟨true, false, 0⟩ 0 1000 (by decide) (by decide)
      (by decide) (by decide)).1,
   (activity_transition_behavior ⟨true, false, 0⟩ 0 1000 (by decide) (by decide)
      (by decide) (by decide)).2.1⟩
